import Mathlib

/-
Verification of the iterative feature-selection loop of autofeat
(src/autofeat/featsel.py, function select_features) against its
natural-language specification.

Embedding choices:
* Floating-point values are modelled as rationals (exact arithmetic);
  numpy float comparisons become exact comparisons on the rationals.
* A pandas DataFrame is modelled column-major: a row count together with
  a list of (column name, column values) pairs.
* The StandardScaler and LassoLarsCV calls are external collaborators per
  the spec (section 1); they enter the embedding as oracle functions
  (Ext.scaleDF, Ext.stdT, Ext.fit).  Everything the core itself computes
  (splitting, scoring dot products, argsort, slicing, pruning, the
  residual history and loop control) is embedded concretely.
* Python slice semantics a[e:] (negative as well as non-negative start
  index) are embedded faithfully in pySliceFrom, because line 73 of the
  source relies on them.
-/

namespace Featsel

/-- A pandas-like data frame: a row count and named float columns. -/
structure DataFrame where
  nRows : Nat
  cols : List (String × List ℚ)
deriving DecidableEq

/-- Column names, in the frame's column order. -/
def DataFrame.names (df : DataFrame) : List String :=
  df.cols.map Prod.fst

/-- Row-prefix slice df[:k]. -/
def DataFrame.takeRows (df : DataFrame) (k : Nat) : DataFrame :=
  ⟨min k df.nRows, df.cols.map (fun p => (p.1, p.2.take k))⟩

/-- Row-suffix slice df[k:]. -/
def DataFrame.dropRows (df : DataFrame) (k : Nat) : DataFrame :=
  ⟨df.nRows - k, df.cols.map (fun p => (p.1, p.2.drop k))⟩

/-- Values of a named column (empty if the name is absent). -/
def DataFrame.colD (df : DataFrame) (c : String) : List ℚ :=
  ((df.cols.find? (fun p => p.1 == c)).map Prod.snd).getD []

/-- Column-major restriction df[cs].to_numpy(). -/
def DataFrame.getCols (df : DataFrame) (cs : List String) : List (List ℚ) :=
  cs.map df.colD

/-- Every column holds exactly nRows values. -/
def DataFrame.WellFormed (df : DataFrame) : Prop :=
  ∀ p ∈ df.cols, p.2.length = df.nRows

/-- Mean of a list, np.mean (division by zero is the Lean convention 0 for the empty list). -/
def mean (l : List ℚ) : ℚ :=
  l.sum / l.length

/-- Dot product of two vectors, np.dot. -/
def dot (a b : List ℚ) : ℚ :=
  (List.zipWith (fun x y => x * y) a b).sum

/-- Closeness test np.isclose with its default tolerances rtol=1e-5, atol=1e-8
(asymmetric in the second argument, as in numpy). -/
def isclose (a b : ℚ) : Bool :=
  decide (|a - b| ≤ (1e-8 : ℚ) + (1e-5 : ℚ) * |b|)

/-- Count np.sum(np.isclose(r, hist)): how many history entries are close to r. -/
def countClose (r : ℚ) (hist : List ℚ) : Nat :=
  hist.countP (fun x => isclose r x)

/-- Insert index i into an index list sorted ascending by key w. -/
def insertAsc (w : List ℚ) (i : Nat) : List Nat → List Nat
  | [] => [i]
  | j :: js =>
    if w.getD j 0 ≤ w.getD i 0 then j :: insertAsc w i js else i :: j :: js

/-- Argsort np.argsort: indices of w sorted by ascending value. -/
def argsortAsc (w : List ℚ) : List Nat :=
  (List.range w.length).foldr (insertAsc w) []

/-- Python slice l[e:] for an arbitrary (possibly negative) start index e. -/
def pySliceFrom {α : Type} (l : List α) (e : Int) : List α :=
  if 0 ≤ e then l.drop e.toNat else l.drop (l.length - (-e).toNat)

/-- Result of a LassoLarsCV fit: coefficients and a predict function. -/
structure FitResult where
  coef_ : List ℚ
  predict : List (List ℚ) → List ℚ

/-- The external collaborators (spec section 1): the data-frame scaler,
the 1-D standardizer applied to the residual target before scoring, and
the sparse regressor (taking eps, the column-major design matrix and the
training target). -/
structure Ext where
  scaleDF : DataFrame → DataFrame
  stdT : List ℚ → List ℚ
  fit : ℚ → List (List ℚ) → List ℚ → FitResult

/-- The per-call context fixed after the train/test split. -/
structure Ctx where
  df_train : DataFrame
  df_test : DataFrame
  target_train : List ℚ
  target_test : List ℚ
  thr : Nat
  max_it : Nat
  eps : ℚ
  E : Ext

/-- The loop-carried state of select_features. -/
structure LoopState where
  good_cols : List String
  best_cols : List String
  new_target : List ℚ
  residual : ℚ
  last_residuals : List ℚ
  smallest_residual : ℚ
  it : Nat
deriving DecidableEq

/-- Candidate list list(set(df_train.columns) - set(good_cols)),
modelled with the frame column order. -/
def candidates (ctx : Ctx) (good_cols : List String) : List String :=
  ctx.df_train.names.filter (fun c => !(good_cols.contains c))

/-- The per-candidate scores
w = np.abs(np.dot(s.fit_transform(new_target[:, None])[:, 0],
df_train[cols_list].to_numpy())). -/
def scores (ctx : Ctx) (new_target : List ℚ) (cols_list : List String) : List ℚ :=
  cols_list.map (fun c => |dot (ctx.E.stdT new_target) (ctx.df_train.colD c)|)

/-- Extension step good_cols.extend([cols_list[c] for c in
np.argsort(w)[-(thr - len(good_cols)):]]), with Python slice semantics
kept intact. -/
def extendCols (ctx : Ctx) (st : LoopState) : List String :=
  let cols_list := candidates ctx st.good_cols
  let w := scores ctx st.new_target cols_list
  st.good_cols ++
    (pySliceFrom (argsortAsc w)
      (-((ctx.thr : Int) - (st.good_cols.length : Int)))).map
      (fun i => cols_list.getD i (""))

/-- Fit step reg = lm.LassoLarsCV(eps=eps); reg.fit(df_train[good_cols], target_train). -/
def fitFor (ctx : Ctx) (g1 : List String) : FitResult :=
  ctx.E.fit ctx.eps (ctx.df_train.getCols g1) ctx.target_train

/-- Prune step good_cols = [c for c in weights if abs(weights[c]) > 1e-6]
with weights = dict(zip(good_cols, reg.coef_)); for duplicate-free
column names this is the positional zip-filter below. -/
def prune (g1 : List String) (fr : FitResult) : List String :=
  ((g1.zip fr.coef_).filter (fun p => decide ((1e-6 : ℚ) < |p.2|))).map Prod.fst

/-- One iteration of the while loop (source lines 62-87). -/
def iterBody (ctx : Ctx) (st : LoopState) : LoopState :=
  let last' := st.last_residuals.set st.it st.residual
  let g1 := extendCols ctx st
  let fr := fitFor ctx g1
  let predTrain := fr.predict (ctx.df_train.getCols g1)
  let new_target' := List.zipWith (fun a b => a - b) ctx.target_train predTrain
  let residual' :=
    mean ((List.zipWith (fun a b => a - b) ctx.target_test
      (fr.predict (ctx.df_test.getCols g1))).map (fun x => |x|))
  let good2 := prune g1 fr
  if residual' < st.smallest_residual then
    ⟨good2, good2, new_target', residual', last', residual', st.it + 1⟩
  else
    ⟨good2, st.best_cols, new_target', residual', last', st.smallest_residual, st.it + 1⟩

/-- The loop guard: (it < max_it) and (not np.sum(np.isclose(residual,
last_residuals)) >= 2). -/
def loopGuard (ctx : Ctx) (st : LoopState) : Bool :=
  decide (st.it < ctx.max_it) && !(decide (2 ≤ countClose st.residual st.last_residuals))

/-- The while loop, driven by fuel; since each iteration increments it
and the guard requires it < max_it, fuel = max_it replays the source
loop exactly. -/
def selectLoop (ctx : Ctx) : Nat → LoopState → LoopState
  | 0, st => st
  | fuel + 1, st =>
    if loopGuard ctx st then selectLoop ctx fuel (iterBody ctx st) else st

/-- State before the first iteration (source lines 50-60). -/
def initState (max_it : Nat) (target_train target_test : List ℚ) : LoopState :=
  let residual := mean (target_test.map (fun x => |x|))
  ⟨[], [], target_train, residual, List.replicate max_it 0, 10 * residual, 0⟩

/-- Train block df_train = df[:max(3, int(0.8 * len(df)))]. -/
def splitTrain (df : DataFrame) : DataFrame :=
  df.takeRows (max 3 ((4 * df.nRows) / 5))

/-- Test block df_test = df[int(0.8 * len(df)):] — note: no max(3, ...) floor here. -/
def splitTest (df : DataFrame) : DataFrame :=
  df.dropRows ((4 * df.nRows) / 5)

/-- The frame the loop operates on: scaled by the external Standardizer
unless the caller says it already is. -/
def df1Of (df : DataFrame) (df_scaled : Bool) (E : Ext) : DataFrame :=
  if df_scaled then df else E.scaleDF df

/-- The context select_features fixes after the split: train/test blocks,
target partitions, thr = int(0.5 * df_train.shape[0]), max_it and eps. -/
def ctxOf (df : DataFrame) (target : List ℚ) (df_scaled : Bool)
    (max_it : Nat) (eps : ℚ) (E : Ext) : Ctx :=
  let df1 := df1Of df df_scaled E
  ⟨splitTrain df1, splitTest df1,
   target.take (max 3 ((4 * df1.nRows) / 5)), target.drop ((4 * df1.nRows) / 5),
   (splitTrain df1).nRows / 2, max_it, eps, E⟩

/-- The initial loop state of a select_features call. -/
def initOf (df : DataFrame) (target : List ℚ) (df_scaled : Bool)
    (max_it : Nat) (E : Ext) : LoopState :=
  initState max_it (target.take (max 3 ((4 * (df1Of df df_scaled E).nRows) / 5)))
    (target.drop ((4 * (df1Of df df_scaled E).nRows) / 5))

/-- select_features up to and including the loop, returning the final
loop state (its best_cols field is the function's return value). -/
def featselRun (df : DataFrame) (target : List ℚ) (df_scaled : Bool)
    (max_it : Nat) (eps : ℚ) (E : Ext) : Except String LoopState :=
  let df1 := if df_scaled then df else E.scaleDF df
  if (splitTrain df1).nRows = (target.take (max 3 ((4 * df1.nRows) / 5))).length ∧
      (splitTest df1).nRows = (target.drop ((4 * df1.nRows) / 5)).length then
    Except.ok (selectLoop (ctxOf df target df_scaled max_it eps E) max_it
      (initOf df target df_scaled max_it E))
  else
    Except.error ("[featsel] df and target dimension mismatch.")

/-- The entry point: returns best_cols (verbose only prints in the
source and cannot influence the result). -/
def select_features (df : DataFrame) (target : List ℚ) (df_scaled : Bool)
    (max_it : Nat) (eps : ℚ) (verbose : Nat) (E : Ext) : Except String (List String) :=
  (featselRun df target df_scaled max_it eps E).map (fun st => st.best_cols)

/-
Concrete instances used by the counterexamples and witnesses below.
extA is a simple admissible behavior of the external collaborators:
the identity standardizer and a regressor that returns all-one
coefficients and predicts, on every row, the number of fitted columns.
-/

/-- A 5-row, 4-column frame; on the 4 training rows the columns have
correlation scores 4 > 3 > 2 > 1 with the initial residual target. -/
def dfA : DataFrame :=
  ⟨5, [("a", [1, 1, 1, 1, 0]), ("b", [1, 1, 1, 0, 0]),
       ("c", [1, 1, 0, 0, 0]), ("d", [1, 0, 0, 0, 0])]⟩

/-- Target for dfA: training part [1,1,1,1], held-out part [4]. -/
def tgtA : List ℚ := [1, 1, 1, 1, 4]

/-- Concrete external collaborators for the runs below. -/
def extA : Ext :=
  { scaleDF := fun df => df
    stdT := fun t => t
    fit := fun _ X _ =>
      { coef_ := List.replicate X.length 1
        predict := fun M => List.replicate (M.headD []).length (X.length : ℚ) } }

/-- The context that featselRun builds for dfA / tgtA with max_it = 2. -/
def ctxA : Ctx :=
  ⟨splitTrain dfA, splitTest dfA, tgtA.take 4, tgtA.drop 4,
   (splitTrain dfA).nRows / 2, 2, 1e-16, extA⟩

/-- The loop state entering the second iteration of the dfA run: both
slots of the working set are filled, so the requested candidate count
thr - len(good_cols) is exactly zero. -/
def stA : LoopState :=
  ⟨["b", "a"], ["b", "a"], [-1, -1, -1, -1], 2, [4, 0], 2, 1⟩

/-
Helper lemmas shared by the claim theorems.
-/

/-- Each iteration increments the iteration counter by one. -/
lemma iterBody_it (ctx : Ctx) (st : LoopState) : (iterBody ctx st).it = st.it + 1 := by
  simp only [iterBody]
  split <;> rfl

/-- One iteration never increases the best-ever residual. -/
lemma iterBody_smallest_le (ctx : Ctx) (st : LoopState) :
    (iterBody ctx st).smallest_residual ≤ st.smallest_residual := by
  simp only [iterBody]
  split
  case isTrue h => exact le_of_lt h
  case isFalse h => exact le_refl _

/-- If an iteration leaves the best-ever residual unchanged, it also
leaves the Best Feature Set unchanged. -/
lemma iterBody_best_of_eq (ctx : Ctx) (st : LoopState)
    (h : (iterBody ctx st).smallest_residual = st.smallest_residual) :
    (iterBody ctx st).best_cols = st.best_cols := by
  revert h
  simp only [iterBody]
  split
  case isTrue hlt => intro h; exact absurd (h ▸ hlt) (lt_irrefl _)
  case isFalse hlt => intro _; rfl

/-- Across any number of loop steps the best-ever residual is
non-increasing. -/
lemma selectLoop_smallest_le (ctx : Ctx) :
    ∀ fuel st, (selectLoop ctx fuel st).smallest_residual ≤ st.smallest_residual := by
  intro fuel
  induction fuel with
  | zero => intro st; exact le_refl _
  | succ n ih =>
    intro st
    simp only [selectLoop]
    split
    · exact le_trans (ih (iterBody ctx st)) (iterBody_smallest_le ctx st)
    · exact le_refl _

/-- If the whole loop leaves the best-ever residual unchanged, the Best
Feature Set is also unchanged. -/
lemma selectLoop_best_of_eq (ctx : Ctx) :
    ∀ fuel st, (selectLoop ctx fuel st).smallest_residual = st.smallest_residual →
      (selectLoop ctx fuel st).best_cols = st.best_cols := by
  intro fuel
  induction fuel with
  | zero => intro st _; rfl
  | succ n ih =>
    intro st
    simp only [selectLoop]
    split
    · intro h
      have h1 := selectLoop_smallest_le ctx n (iterBody ctx st)
      have h2 := iterBody_smallest_le ctx st
      have hmid : (iterBody ctx st).smallest_residual = st.smallest_residual :=
        le_antisymm h2 (h ▸ h1)
      have h3 : (selectLoop ctx n (iterBody ctx st)).smallest_residual =
          (iterBody ctx st).smallest_residual := by rw [h, hmid]
      rw [ih (iterBody ctx st) h3, iterBody_best_of_eq ctx st hmid]
    · intro _; rfl

/-- The loop guard, read as a proposition. -/
lemma loopGuard_iff (ctx : Ctx) (st : LoopState) :
    loopGuard ctx st = true ↔
      (st.it < ctx.max_it ∧ countClose st.residual st.last_residuals < 2) := by
  simp only [loopGuard, Bool.and_eq_true, Bool.not_eq_true', decide_eq_true_eq,
    decide_eq_false_iff_not, Nat.not_le]

/-- A false guard stops the loop immediately, whatever fuel remains. -/
lemma selectLoop_of_guard_false (ctx : Ctx) (fuel : Nat) (st : LoopState)
    (h : loopGuard ctx st = false) : selectLoop ctx fuel st = st := by
  cases fuel with
  | zero => rfl
  | succ n => simp [selectLoop, h]

/-- Two close history entries force the guard to false. -/
lemma guard_false_of_count (ctx : Ctx) (st : LoopState)
    (h : 2 ≤ countClose st.residual st.last_residuals) : loopGuard ctx st = false := by
  have hd : decide (2 ≤ countClose st.residual st.last_residuals) = true := decide_eq_true h
  simp [loopGuard, hd]

/-- A successful featselRun is exactly the loop run from the initial
state in the split context. -/
lemma featselRun_ok_elim (df : DataFrame) (target : List ℚ) (sc : Bool)
    (max_it : Nat) (eps : ℚ) (E : Ext) (st : LoopState)
    (h : featselRun df target sc max_it eps E = Except.ok st) :
    st = selectLoop (ctxOf df target sc max_it eps E) max_it
      (initOf df target sc max_it E) := by
  simp only [featselRun] at h
  split at h <;> split at h
  all_goals first
    | exact Except.noConfusion h
    | (injection h with h1; exact h1.symm)

/-- The final good_cols of an iteration is the prune of the extended set. -/
lemma iterBody_good (ctx : Ctx) (st : LoopState) :
    (iterBody ctx st).good_cols =
      prune (extendCols ctx st) (fitFor ctx (extendCols ctx st)) := by
  simp only [iterBody]
  split <;> rfl

/-- C1: the claim demands that a non-positive requested candidate count
k = thr - len(good_cols) add zero candidates.  The source computes
np.argsort(w)[-(k):], and for k = 0 the slice [-0:] = [0:] selects every
remaining candidate.  At the concrete reachable state stA (thr = 2,
|good_cols| = 2, so k = 0) the Candidate Scorer appends the two
candidates "d" and "c" instead of none. -/
theorem C1_zero_count_adds_all :
    (ctxA.thr : Int) - (stA.good_cols.length : Int) = 0 ∧
    extendCols ctxA stA = ["b", "a", "d", "c"] := by
  constructor
  · with_unfolding_all rfl
  · with_unfolding_all rfl

/-- C2: evaluating the claim on the concrete run dfA / tgtA (n = 5 ≥ 4,
p = 4 ≥ 1, matching target length): thr = floor(0.5 * len(train)) = 2,
yet select_features returns four columns, because the k = 0 slice of C1
inflates the Working Feature Set past the cap and the improved residual
then snapshots the oversized set.  The subset part of the claim holds
here; the size bound is violated. -/
theorem C2_size_exceeds_thr :
    select_features dfA tgtA true 2 (1e-16) 0 extA = Except.ok (["b", "a", "d", "c"]) ∧
    (splitTrain dfA).nRows / 2 < (["b", "a", "d", "c"] : List String).length := by
  constructor
  · with_unfolding_all rfl
  · decide

/-- A 3-row frame on which the claimed split invariants fail. -/
def dfB : DataFrame :=
  ⟨3, [("x", [5, 6, 7])]⟩

/-- C5 counterexample: for dfB (n = 3) the train block is the first
max(3, floor(0.8*3)) = 3 rows but the test block starts at row
floor(0.8*3) = 2, so the blocks overlap and the lengths sum to 4 ≠ 3. -/
theorem C5_overlap_cex :
    (splitTrain dfB).nRows + (splitTest dfB).nRows ≠ dfB.nRows := by
  decide

/-- C5 amended: for every Dataset with n ≥ 4 rows, train is the first
max(3, floor(0.8*n)) rows, the blocks are disjoint and cover all rows
(per column, train values ++ test values = original values), and the
lengths sum to n. -/
theorem C5_split_partition (df : DataFrame) (h4 : 4 ≤ df.nRows) :
    (splitTrain df).nRows = max 3 ((4 * df.nRows) / 5) ∧
    (splitTrain df).nRows + (splitTest df).nRows = df.nRows ∧
    ((splitTrain df).cols.zip (splitTest df).cols).map
      (fun p => (p.1.1, p.1.2 ++ p.2.2)) = df.cols := by
  have hs3 : 3 ≤ (4 * df.nRows) / 5 := by omega
  have hsn : (4 * df.nRows) / 5 ≤ df.nRows := by omega
  have hmax : max 3 ((4 * df.nRows) / 5) = (4 * df.nRows) / 5 := Nat.max_eq_right hs3
  refine ⟨?_, ?_, ?_⟩
  · simp only [splitTrain, DataFrame.takeRows]
    rw [hmax]
    exact Nat.min_eq_left hsn
  · simp only [splitTrain, splitTest, DataFrame.takeRows, DataFrame.dropRows]
    omega
  · simp only [splitTrain, splitTest, DataFrame.takeRows, DataFrame.dropRows, hmax]
    rw [List.zip_map', List.map_map]
    have hfun : ((fun p : (String × List ℚ) × (String × List ℚ) => (p.1.1, p.1.2 ++ p.2.2)) ∘
        (fun p : String × List ℚ =>
          ((p.1, p.2.take ((4 * df.nRows) / 5)), (p.1, p.2.drop ((4 * df.nRows) / 5))))) =
        id := by
      funext p
      simp [List.take_append_drop]
    rw [hfun, List.map_id]

/-- A 5-row frame used to witness the amended split claim. -/
def dfC : DataFrame :=
  ⟨5, [("y", [1, 2, 3, 4, 5])]⟩

/-- Witness for the amended C5 at the concrete 5-row frame dfC. -/
theorem C5_split_partition_witness :
    (splitTrain dfC).nRows = max 3 ((4 * dfC.nRows) / 5) ∧
    (splitTrain dfC).nRows + (splitTest dfC).nRows = dfC.nRows ∧
    ((splitTrain dfC).cols.zip (splitTest dfC).cols).map
      (fun p => (p.1.1, p.1.2 ++ p.2.2)) = dfC.cols :=
  C5_split_partition dfC (by decide)

/-- Whenever the fuel covers the remaining iteration budget, the loop
stops in a state satisfying the disjunctive exit condition over the
whole fixed-size history array. -/
lemma selectLoop_exit (ctx : Ctx) :
    ∀ fuel st, ctx.max_it ≤ st.it + fuel →
      ctx.max_it ≤ (selectLoop ctx fuel st).it ∨
      2 ≤ countClose (selectLoop ctx fuel st).residual
        (selectLoop ctx fuel st).last_residuals := by
  intro fuel
  induction fuel with
  | zero =>
    intro st hf
    left
    simpa using hf
  | succ n ih =>
    intro st hf
    simp only [selectLoop]
    split
    case isTrue hg =>
      exact ih (iterBody ctx st) (by rw [iterBody_it]; omega)
    case isFalse hg =>
      have hng : ¬(st.it < ctx.max_it ∧ countClose st.residual st.last_residuals < 2) := by
        rw [← loopGuard_iff]
        exact hg
      omega

/-- The 5-row frame of the early-exit counterexample for C3. -/
def dfD : DataFrame :=
  ⟨5, [("u", [1, 2, 3, 4, 5])]⟩

/-- Target for dfD whose held-out part is exactly zero. -/
def tgtD : List ℚ := [3, 3, 3, 3, 0]

/-- C3 counterexample: on dfD / tgtD the baseline residual is 0, which
is close to the zero-initialized, never-written history slots; the loop
exits before its first iteration (final state = initial state, it = 0 <
max_it = 3) even though no prior iteration ever recorded a residual, so
termination is not characterized by entries written by prior
iterations. -/
theorem C3_unwritten_slots_cex :
    featselRun dfD tgtD true 3 (1e-16) extA =
      Except.ok (initState 3 (tgtD.take 4) (tgtD.drop 4)) ∧
    (initState 3 (tgtD.take 4) (tgtD.drop 4)).it < 3 := by
  constructor
  · with_unfolding_all rfl
  · decide

/-- C3 amended: the loop terminates exactly when it ≥ max_it or when at
least two entries of the max_it-sized history array — entries written by
prior iterations or zero-initialized slots not yet overwritten — are
numerically close to the residual recorded at the start of the current
iteration: every final state satisfies the disjunction, and the guard
keeps iterating exactly while neither condition holds. -/
theorem C3_loop_exit_condition (ctx : Ctx) (fuel : Nat) (st : LoopState)
    (hf : ctx.max_it ≤ st.it + fuel) :
    (ctx.max_it ≤ (selectLoop ctx fuel st).it ∨
      2 ≤ countClose (selectLoop ctx fuel st).residual
        (selectLoop ctx fuel st).last_residuals) ∧
    (∀ st2 : LoopState, loopGuard ctx st2 = true ↔
      (st2.it < ctx.max_it ∧ countClose st2.residual st2.last_residuals < 2)) :=
  ⟨selectLoop_exit ctx fuel st hf, fun st2 => loopGuard_iff ctx st2⟩

/-- Witness for C3 on the concrete dfA context. -/
theorem C3_loop_exit_condition_witness :
    (ctxA.max_it ≤ (selectLoop ctxA 2 (initState 2 (tgtA.take 4) (tgtA.drop 4))).it ∨
      2 ≤ countClose (selectLoop ctxA 2 (initState 2 (tgtA.take 4) (tgtA.drop 4))).residual
        (selectLoop ctxA 2 (initState 2 (tgtA.take 4) (tgtA.drop 4))).last_residuals) ∧
    (loopGuard ctxA stA = true ↔
      (stA.it < ctxA.max_it ∧ countClose stA.residual stA.last_residuals < 2)) :=
  ⟨(C3_loop_exit_condition ctxA 2 (initState 2 (tgtA.take 4) (tgtA.drop 4))
      (by decide)).1,
   (C3_loop_exit_condition ctxA 2 (initState 2 (tgtA.take 4) (tgtA.drop 4))
      (by decide)).2 stA⟩

/-- C4: if max_it ≥ 2 and the pre-loop baseline residual
mean(|target_test|) is within the isclose tolerance of 0 (i.e. ≤ 1e-8),
the zero-initialized history already holds max_it ≥ 2 close entries, so
no iteration executes and select_features returns the empty list. -/
theorem C4_zero_baseline_skips_loop (df : DataFrame) (target : List ℚ)
    (max_it : Nat) (eps : ℚ) (E : Ext) (st : LoopState)
    (h2 : 2 ≤ max_it)
    (hrun : featselRun df target true max_it eps E = Except.ok st)
    (hzero : isclose (mean ((target.drop ((4 * df.nRows) / 5)).map (fun x => |x|))) 0
      = true) :
    st.it = 0 ∧ st.best_cols = [] ∧
      select_features df target true max_it eps 0 E = Except.ok [] := by
  have h0 := hrun
  have hst := featselRun_ok_elim df target true max_it eps E st hrun
  have hres : (initOf df target true max_it E).residual =
      mean ((target.drop ((4 * df.nRows) / 5)).map (fun x => |x|)) := rfl
  have hrepl : (initOf df target true max_it E).last_residuals =
      List.replicate max_it 0 := rfl
  have hcount : countClose (initOf df target true max_it E).residual
      (initOf df target true max_it E).last_residuals = max_it := by
    rw [hres, hrepl]
    simp only [countClose, List.countP_replicate, hzero, if_true]
  have hguard : loopGuard (ctxOf df target true max_it eps E)
      (initOf df target true max_it E) = false :=
    guard_false_of_count _ _ (by omega)
  have hloop : selectLoop (ctxOf df target true max_it eps E) max_it
      (initOf df target true max_it E) = initOf df target true max_it E :=
    selectLoop_of_guard_false _ _ _ hguard
  rw [hloop] at hst
  subst hst
  refine ⟨rfl, rfl, ?_⟩
  unfold select_features
  rw [h0]
  rfl

/-- The frame and target of the C4 witness run. -/
def dfE : DataFrame :=
  ⟨5, [("v", [1, 2, 3, 4, 5])]⟩

/-- Target for dfE whose held-out part is zero. -/
def tgtE : List ℚ := [2, 2, 2, 2, 0]

/-- Witness for C4 on the concrete dfE / tgtE inputs with max_it = 2. -/
theorem C4_zero_baseline_skips_loop_witness :
    (initOf dfE tgtE true 2 extA).it = 0 ∧
    (initOf dfE tgtE true 2 extA).best_cols = [] ∧
    select_features dfE tgtE true 2 (1e-16) 0 extA = Except.ok [] :=
  C4_zero_baseline_skips_loop dfE tgtE 2 (1e-16) extA (initOf dfE tgtE true 2 extA)
    (by decide) (by with_unfolding_all rfl) (by with_unfolding_all rfl)

/-- C6: with the data already scaled, select_features raises the
dimension-mismatch error exactly when a target partition length differs
from the corresponding row-partition length, and — for n ≥ 4 — exactly
when len(target) ≠ n.  The error branch returns before the loop is ever
entered, so no iteration state exists in that case. -/
theorem C6_dimension_mismatch (df : DataFrame) (target : List ℚ) (max_it : Nat)
    (eps : ℚ) (E : Ext) (h4 : 4 ≤ df.nRows) :
    (featselRun df target true max_it eps E =
        Except.error ("[featsel] df and target dimension mismatch.") ↔
      ¬((splitTrain df).nRows = (target.take (max 3 ((4 * df.nRows) / 5))).length ∧
        (splitTest df).nRows = (target.drop ((4 * df.nRows) / 5)).length)) ∧
    (featselRun df target true max_it eps E =
        Except.error ("[featsel] df and target dimension mismatch.") ↔
      target.length ≠ df.nRows) := by
  have key : featselRun df target true max_it eps E =
      Except.error ("[featsel] df and target dimension mismatch.") ↔
      ¬((splitTrain df).nRows = (target.take (max 3 ((4 * df.nRows) / 5))).length ∧
        (splitTest df).nRows = (target.drop ((4 * df.nRows) / 5)).length) := by
    simp only [featselRun, if_true]
    split
    case isTrue hc => exact iff_of_false (by simp) (not_not_intro hc)
    case isFalse hc => exact iff_of_true rfl hc
  have harith :
      ¬((splitTrain df).nRows = (target.take (max 3 ((4 * df.nRows) / 5))).length ∧
        (splitTest df).nRows = (target.drop ((4 * df.nRows) / 5)).length) ↔
      target.length ≠ df.nRows := by
    dsimp only [splitTrain, splitTest, DataFrame.takeRows, DataFrame.dropRows]
    simp only [List.length_take, List.length_drop]
    omega
  exact ⟨key, key.trans harith⟩

/-- Witness for C6: dfA has 5 rows, a 3-element target mismatches, and
the call raises the dimension error. -/
theorem C6_dimension_mismatch_witness :
    featselRun dfA ([1, 1, 1]) true 2 (1e-16) extA =
      Except.error ("[featsel] df and target dimension mismatch.") :=
  (C6_dimension_mismatch dfA ([1, 1, 1]) 2 (1e-16) extA (by decide)).2.mpr (by decide)

/-- C7: the best-ever residual is seeded at 10× the baseline and is
non-increasing across the loop; an iteration replaces the Best Feature
Set with the post-prune Working Feature Set exactly when its validation
residual is strictly below the current best-ever residual; and if the
whole run never improves on the seed, select_features returns the empty
set. -/
theorem C7_best_tracking (ctx : Ctx) (st : LoopState) (fuel : Nat)
    (df : DataFrame) (target : List ℚ) (max_it : Nat) (eps : ℚ) (E : Ext)
    (st2 : LoopState) :
    (selectLoop ctx fuel st).smallest_residual ≤ st.smallest_residual ∧
    ((iterBody ctx st).residual < st.smallest_residual →
      (iterBody ctx st).best_cols = (iterBody ctx st).good_cols ∧
      (iterBody ctx st).smallest_residual = (iterBody ctx st).residual) ∧
    (st.smallest_residual ≤ (iterBody ctx st).residual →
      (iterBody ctx st).best_cols = st.best_cols ∧
      (iterBody ctx st).smallest_residual = st.smallest_residual) ∧
    (featselRun df target true max_it eps E = Except.ok st2 →
      st2.smallest_residual =
        10 * mean ((target.drop ((4 * df.nRows) / 5)).map (fun x => |x|)) →
      st2.best_cols = []) := by
  refine ⟨selectLoop_smallest_le ctx fuel st, ?_, ?_, ?_⟩
  · simp only [iterBody]
    split
    case isTrue hc => exact fun _ => ⟨rfl, rfl⟩
    case isFalse hc => exact fun h => absurd h hc
  · simp only [iterBody]
    split
    case isTrue hc => exact fun h => absurd hc h.not_lt
    case isFalse hc => exact fun _ => ⟨rfl, rfl⟩
  · intro hrun hseed
    have hst := featselRun_ok_elim df target true max_it eps E st2 hrun
    have hinit_small : (initOf df target true max_it E).smallest_residual =
        10 * mean ((target.drop ((4 * df.nRows) / 5)).map (fun x => |x|)) := rfl
    have hinit_best : (initOf df target true max_it E).best_cols = [] := rfl
    have hsm : (selectLoop (ctxOf df target true max_it eps E) max_it
        (initOf df target true max_it E)).smallest_residual =
        (initOf df target true max_it E).smallest_residual := by
      rw [← hst, hseed, hinit_small]
    rw [hst, selectLoop_best_of_eq _ _ _ hsm, hinit_best]

/-- Witness for C7 at the concrete second-iteration state of the dfA
run, whose residual 0 strictly improves on the best-ever residual 2. -/
theorem C7_best_tracking_witness :
    (iterBody ctxA stA).best_cols = (iterBody ctxA stA).good_cols ∧
    (selectLoop ctxA 2 stA).smallest_residual ≤ stA.smallest_residual := by
  have h := C7_best_tracking ctxA stA 2 dfA tgtA 2 (1e-16) extA stA
  exact ⟨(h.2.1 (by with_unfolding_all decide)).1, h.1⟩

/-- The pruned set is a sublist of the fitted feature set. -/
lemma prune_sublist (g1 : List String) (fr : FitResult)
    (hlen : g1.length ≤ fr.coef_.length) : (prune g1 fr).Sublist g1 := by
  unfold prune
  have h := List.Sublist.map Prod.fst
    (@List.filter_sublist (String × ℚ) (fun q => decide ((1e-6 : ℚ) < |q.2|))
      (g1.zip fr.coef_))
  rw [List.map_fst_zip g1 fr.coef_ hlen] at h
  exact h

/-- For duplicate-free features with positionally matching coefficients,
the i-th feature survives the prune exactly when its coefficient
magnitude exceeds 1e-6. -/
lemma prune_mem_iff (g1 : List String) (fr : FitResult) (hnd : g1.Nodup)
    (hlen : fr.coef_.length = g1.length) (i : Nat) (hi : i < g1.length) :
    (g1.getD i ("") ∈ prune g1 fr ↔ (1e-6 : ℚ) < |fr.coef_.getD i 0|) := by
  have hic : i < fr.coef_.length := by omega
  have hiz : i < (g1.zip fr.coef_).length := by
    rw [List.length_zip]
    omega
  rw [List.getD_eq_getElem g1 ("") hi, List.getD_eq_getElem fr.coef_ 0 hic]
  unfold prune
  constructor
  · intro hmem
    obtain ⟨q, hqf, hq1⟩ := List.mem_map.mp hmem
    obtain ⟨hqz, hqp⟩ := List.mem_filter.mp hqf
    obtain ⟨j, hj, hjq⟩ := List.mem_iff_getElem.mp hqz
    have hjg : j < g1.length := by
      rw [List.length_zip] at hj
      omega
    have hjc : j < fr.coef_.length := by
      rw [List.length_zip] at hj
      omega
    rw [List.getElem_zip] at hjq
    have hfst : g1.get ⟨j, hjg⟩ = g1.get ⟨i, hi⟩ := by
      rw [List.get_eq_getElem, List.get_eq_getElem]
      rw [← hjq] at hq1
      exact hq1
    have hji : j = i :=
      congrArg Fin.val ((@List.Nodup.get_inj_iff String g1 hnd ⟨j, hjg⟩ ⟨i, hi⟩).mp hfst)
    subst hji
    rw [← hjq] at hqp
    simpa using hqp
  · intro hlt
    apply List.mem_map.mpr
    refine ⟨(g1[i], fr.coef_[i]), ?_, rfl⟩
    apply List.mem_filter.mpr
    refine ⟨?_, by simpa using hlt⟩
    have hz : (g1.zip fr.coef_)[i] = (g1[i], fr.coef_[i]) := List.getElem_zip
    rw [← hz]
    exact List.getElem_mem hiz

/-- Any column outside the current Working Feature Set is a scoring
candidate again. -/
lemma candidates_mem (ctx : Ctx) (gc : List String) (c : String)
    (h1 : c ∈ ctx.df_train.names) (h2 : c ∉ gc) : c ∈ candidates ctx gc := by
  unfold candidates
  refine List.mem_filter.mpr ⟨h1, ?_⟩
  simp [h2]

/-- C8: after the fit, the Working Feature Set is reduced to exactly
those of its current (extended) features whose coefficient magnitude
exceeds 1e-6 — it is a sublist of the extended set, and the i-th
extended feature is kept iff |coef_ i| > 1e-6 — and any column not in
the resulting Working Feature Set (in particular any pruned feature) is
again in the next iteration's candidate list, since exclusion depends
only on current membership. -/
theorem C8_prune_and_reeligibility (ctx : Ctx) (st : LoopState)
    (hnd : (extendCols ctx st).Nodup)
    (hlen : (fitFor ctx (extendCols ctx st)).coef_.length = (extendCols ctx st).length) :
    (iterBody ctx st).good_cols.Sublist (extendCols ctx st) ∧
    (∀ i, i < (extendCols ctx st).length →
      ((extendCols ctx st).getD i ("") ∈ (iterBody ctx st).good_cols ↔
        (1e-6 : ℚ) < |(fitFor ctx (extendCols ctx st)).coef_.getD i 0|)) ∧
    (∀ c, c ∈ ctx.df_train.names → c ∉ (iterBody ctx st).good_cols →
      c ∈ candidates ctx (iterBody ctx st).good_cols) := by
  rw [iterBody_good]
  exact ⟨prune_sublist _ _ (by omega),
    fun i hi => prune_mem_iff _ _ hnd hlen i hi,
    fun c h1 h2 => candidates_mem ctx _ c h1 h2⟩

/-- Witness for C8 at the concrete dfA second-iteration state: the third
extended feature has coefficient 1 and stays in the working set. -/
theorem C8_prune_and_reeligibility_witness :
    (extendCols ctxA stA).getD 2 ("") ∈ (iterBody ctxA stA).good_cols :=
  ((C8_prune_and_reeligibility ctxA stA (by with_unfolding_all decide)
      (by with_unfolding_all decide)).2.1 2
      (by with_unfolding_all decide)).mpr (by with_unfolding_all decide)

/-- C9: with max_it = 0 the loop body never executes (the final state is
the initial one, it = 0) and select_features returns the empty Best
Feature Set. -/
theorem C9_max_it_zero (df : DataFrame) (target : List ℚ) (df_scaled : Bool)
    (eps : ℚ) (E : Ext) (st : LoopState)
    (hrun : featselRun df target df_scaled 0 eps E = Except.ok st) :
    st.it = 0 ∧ st.best_cols = [] ∧
      select_features df target df_scaled 0 eps 0 E = Except.ok [] := by
  have h0 := hrun
  simp only [featselRun] at hrun
  split at hrun <;> split at hrun
  all_goals first
    | exact Except.noConfusion hrun
    | (injection hrun with h
       subst h
       refine ⟨rfl, rfl, ?_⟩
       unfold select_features
       rw [h0]
       rfl)

/-- Witness for C9 on the concrete dfA / tgtA inputs. -/
theorem C9_max_it_zero_witness :
    (initState 0 (tgtA.take 4) (tgtA.drop 4)).it = 0 ∧
    (initState 0 (tgtA.take 4) (tgtA.drop 4)).best_cols = [] ∧
    select_features dfA tgtA true 0 (1e-16) 0 extA = Except.ok [] :=
  C9_max_it_zero dfA tgtA true (1e-16) extA
    (initState 0 (tgtA.take 4) (tgtA.drop 4)) rfl

/-- C10: with identical Dataset, target and parameters, two invocations
yield the identical Best Feature Set and the identical final loop state
(including the per-iteration residual history); verbosity cannot change
the result. -/
theorem C10_deterministic (df1 df2 : DataFrame) (t1 t2 : List ℚ) (sc : Bool)
    (mi : Nat) (eps : ℚ) (vb1 vb2 : Nat) (E : Ext)
    (hdf : df1 = df2) (ht : t1 = t2) :
    select_features df1 t1 sc mi eps vb1 E = select_features df2 t2 sc mi eps vb2 E ∧
    featselRun df1 t1 sc mi eps E = featselRun df2 t2 sc mi eps E := by
  subst hdf
  subst ht
  exact ⟨rfl, rfl⟩

/-- Witness for C10 on the concrete dfA / tgtA inputs, with two
different verbosity levels. -/
theorem C10_deterministic_witness :
    select_features dfA tgtA true 2 (1e-16) 0 extA =
      select_features dfA tgtA true 2 (1e-16) 1 extA ∧
    featselRun dfA tgtA true 2 (1e-16) extA = featselRun dfA tgtA true 2 (1e-16) extA :=
  C10_deterministic dfA dfA tgtA tgtA true 2 (1e-16) 0 1 extA rfl rfl

end Featsel
